import Mathlib

/-!
Verification of the IESM form application (src/IESM-Form.py).

The Python source is shallowly embedded: each helper of the script becomes a
Lean function over explicit data (JSON values, rows as association lists,
Streamlit session state as a record).  Line numbers in doc comments refer to
src/IESM-Form.py.
-/

/-- Python `s.lower()` (ASCII case folding, the only case occurring here). -/
def pyLower (s : String) : String := String.mk (s.data.map Char.toLower)

/-- Python `s.strip()`: drop leading and trailing whitespace. -/
def pyStrip (s : String) : String :=
  String.mk (((s.data.dropWhile Char.isWhitespace).reverse.dropWhile Char.isWhitespace).reverse)

/-- Python `needle in hay` substring containment, on lists of characters. -/
def listInfixOf (needle : List Char) : List Char → Bool
  | [] => needle.isEmpty
  | c :: t => needle.isPrefixOf (c :: t) || listInfixOf needle t

/-- Python `needle in hay` for strings (substring containment). -/
def pyIn (needle hay : String) : Bool :=
  listInfixOf needle.data hay.data

/-- JSON values, as produced by `resp.json()` at line 74. -/
inductive Json where
  | null
  | bool (b : Bool)
  | num (n : Int)
  | str (s : String)
  | arr (elems : List Json)
  | obj (fields : List (String × Json))

/-- Python `d.get(k)` / `k in d` on a JSON object's field list.  A Python dict
cannot bind a key twice, so reading the first binding is dict semantics. -/
def jsonGet (fields : List (String × Json)) (k : String) : Option Json :=
  (fields.find? (fun p => p.1 == k)).map Prod.snd

/-- Python `str()` of the JSON value interpolated into the f-string at line 81.
The endpoint's `error` field is a string message, for which `str()` is the
identity; the other JSON shapes get a fixed structural rendering (their exact
Python text is immaterial here). -/
def pyStr : Json → String
  | .null => "None"
  | .bool true => "True"
  | .bool false => "False"
  | .num n => toString n
  | .str s => s
  | .arr _ => "<list>"
  | .obj _ => "<dict>"

/-- `isinstance(j, dict)`. -/
def isDict : Json → Bool
  | .obj _ => true
  | _ => false

/-- The field list of a JSON object (empty for non-objects). -/
def dictFields : Json → List (String × Json)
  | .obj fields => fields
  | _ => []

/-- `isinstance(j, list)`. -/
def isList : Json → Bool
  | .arr _ => true
  | _ => false

/-- The element list of a JSON array (empty for non-arrays). -/
def listElems : Json → List Json
  | .arr elems => elems
  | _ => []

/-- `isinstance(j["data"], list)` applied to an optional field value. -/
def isDataList : Option Json → Bool
  | some (.arr _) => true
  | _ => false

/-- The rows of an optional `data` field known to be an array. -/
def dataElems : Option Json → List Json
  | some (.arr elems) => elems
  | _ => []

/-- The dict returned by `fetch_sheet_data` (line 61):
`{"ok": bool, "error": str|None, "data": list|None}`. -/
structure FetchResult where
  ok : Bool
  error : Option String
  data : Option (List Json)

/-- Outcome of the HTTP GET at lines 72-74: a raised
`requests.exceptions.RequestException` (network/transport failure, timeout, or
bad HTTP status), a body that fails JSON parsing (`ValueError`), or a parsed
JSON body. -/
inductive HttpOutcome where
  | requestError (e : String)
  | invalidJson
  | json (j : Json)

/-- Classification of a parsed JSON body, lines 80-86 of `fetch_sheet_data`. -/
def classify_response (j : Json) : FetchResult :=
  if isDict j && (jsonGet (dictFields j) "error").isSome then
    { ok := false
      error := some ("Server error: " ++ pyStr ((jsonGet (dictFields j) "error").getD .null))
      data := none }
  else if isDict j && isDataList (jsonGet (dictFields j) "data") then
    { ok := true, error := none, data := some (dataElems (jsonGet (dictFields j) "data")) }
  else if isList j then
    { ok := true, error := none, data := some (listElems j) }
  else
    { ok := false, error := some "Unexpected response from apps script.", data := none }

/-- `fetch_sheet_data` (lines 59-86), with the HTTP exchange made explicit as
an `HttpOutcome`.  An unconfigured URL (Python falsy: `None` or `""`, modelled
as `""`) short-circuits before any request. -/
def fetch_sheet_data (url : String) (outcome : HttpOutcome) : FetchResult :=
  if url == "" then
    { ok := false, error := some "Apps Script URL not configured.", data := none }
  else
    match outcome with
    | .requestError e =>
        { ok := false, error := some ("Network error: " ++ e), data := none }
    | .invalidJson =>
        { ok := false, error := some "Invalid JSON returned from apps script.", data := none }
    | .json j => classify_response j

/-- A sheet row as consumed by `find_email_row`: a JSON object whose cell
values are strings (the script applies `str()` before every use).  Encoded as
an association list; a Python dict cannot bind a key twice, so the first
binding per key is dict semantics. -/
abbrev Row := List (String × String)

/-- `list(row.keys())`, in insertion order. -/
def rowKeys (r : Row) : List String := r.map Prod.fst

/-- Python `row.get(k, "")` (with `str()` already applied to the cell). -/
def rowGetD (r : Row) (k : String) : String :=
  ((r.find? (fun p => p.1 == k)).map Prod.snd).getD ""

/-- Candidate email-column discovery, lines 91-98 of `find_email_row`: every
key of the first row whose name contains "email" case-insensitively; when no
key matches, every key whose first-row value, stripped, contains "@" (the
loop at lines 95-98 appends each such key to the empty list). -/
def discover_email_cols (sample : Row) : List String :=
  let keys := rowKeys sample
  let byName := keys.filter (fun k => pyIn "email" (pyLower k))
  if byName.isEmpty then
    keys.filter (fun k => pyIn "@" (pyStrip (rowGetD sample k)))
  else byName

/-- The inner loop of lines 99-103: some candidate column's cell value,
stripped and lower-cased, equals the lookup key. -/
def row_matches_email (cols : List String) (email_norm : String) (r : Row) : Bool :=
  cols.any (fun ec => pyLower (pyStrip (rowGetD r ec)) == email_norm)

/-- `find_email_row` (lines 88-104): `None` on empty rows, else the first row
(in row order) with a matching candidate-column value. -/
def find_email_row (rows : List Row) (email_norm : String) : Option Row :=
  match rows with
  | [] => none
  | sample :: rest =>
      (sample :: rest).find? (row_matches_email (discover_email_cols sample) email_norm)

/-- The caller-side normalization of the typed email at line 194:
`(email_input or "").strip().lower()`. -/
def normalize_email (email_input : String) : String := pyLower (pyStrip email_input)

/-- `pick_key` (lines 106-111): for each candidate substring in order, return
the first key whose lower-cased name contains it. -/
def pick_key (keys : List String) : List String → Option String
  | [] => none
  | cand :: rest =>
      match keys.find? (fun k => pyIn cand (pyLower k)) with
      | some k => some k
      | none => pick_key keys rest

/-- A config-sheet cell: `none` models Python `None`, otherwise the cell's
text (`str()` is applied by the parser before every use). -/
abbrev Cell := Option String

/-- Lines 133-136 / 153-156: `None` becomes `""`, then `str(v).strip()`. -/
def cellVal (c : Cell) : String := pyStrip (c.getD "")

/-- Python `r.get(h, "")` on a dict-shaped config row, then the `None` check:
an absent key yields `""` like a `None` cell does. -/
def drowGet (r : List (String × Cell)) (h : String) : String :=
  cellVal (((r.find? (fun p => p.1 == h)).map Prod.snd).getD (some ""))

/-- Lines 131-138: the non-empty stripped values under header `h`, in row
order. -/
def colVals (rows : List (List (String × Cell))) (h : String) : List String :=
  rows.filterMap (fun r =>
    let v := drowGet r h
    if v == "" then none else some v)

/-- Lines 139-142: drop the leading value when it duplicates the header
(both sides stripped and lower-cased). -/
def dropDupHeader (h : String) (vals : List String) : List String :=
  match vals with
  | [] => []
  | v :: rest =>
      if pyLower (pyStrip v) == pyLower (pyStrip h) then rest else v :: rest

/-- Python `cols[k] = v` on a dict encoded as an association list in insertion
order: overwrite the existing binding, else append. -/
def dictSet {κ α : Type} [BEq κ] (m : List (κ × α)) (k : κ) (v : α) : List (κ × α) :=
  if m.any (fun p => p.1 == k) then
    m.map (fun p => if p.1 == k then (k, v) else p)
  else m ++ [(k, v)]

/-- Dict lookup on the parsed config table. -/
def tableGet {κ : Type} [BEq κ] (t : List (κ × List String)) (h : κ) : Option (List String) :=
  (t.find? (fun p => p.1 == h)).map Prod.snd

/-- `parse_config_columns` on a list of dict-shaped rows (lines 127-144):
headers are the first row's keys; each header's column is its non-empty
stripped values across all rows, with a leading duplicate of the header
dropped. -/
def parse_config_dicts (rows : List (List (String × Cell))) : List (String × List String) :=
  match rows with
  | [] => []
  | r0 :: rest =>
      (r0.map Prod.fst).foldl
        (fun cols h => dictSet cols h (dropDupHeader h (colVals (r0 :: rest) h)))
        []

/-- Lines 149-158: the non-empty stripped values of column `ci` across the
data rows.  An index past a short row contributes nothing (Python skips it;
here the default `none` cell strips to `""` and is filtered out). -/
def listColVals (dataRows : List (List Cell)) (ci : Nat) : List String :=
  dataRows.filterMap (fun r =>
    let v := cellVal (r.getD ci none)
    if v == "" then none else some v)

/-- `parse_config_columns` on a list of list-shaped rows (lines 147-160): the
first row is the header row; each header's column is built positionally from
the later rows, blanks omitted, with no content-based dropping. -/
def parse_config_lists (rows : List (List Cell)) : List (Cell × List String) :=
  match rows with
  | [] => []
  | headers :: dataRows =>
      headers.enum.foldl (fun cols p => dictSet cols p.2 (listColVals dataRows p.1)) []

/-- The request-type selectbox options (line 261). -/
def request_type_options : List String := ["-- Select --", "Maintenance", "New", "Project"]

/-- The department-scope selectbox options (line 278). -/
def dept_type_options : List String := ["-- Select --", "Single", "Multiple"]

/-- Python truthiness of an optional string (`not st.session_state.get(k)`):
`None` and `""` are falsy. -/
def pyTruthy : Option String → Bool
  | none => false
  | some s => !(s == "")

/-- The `index` passed to the dept-scope selectbox (lines 279-283): the
position of the stored `dept_type` when it is `"Single"` or `"Multiple"`,
else 0. -/
def dept_type_index (sess_dept : Option String) : Nat :=
  if !(pyTruthy sess_dept) then 0
  else if ["Single", "Multiple"].contains (sess_dept.getD "") then
    dept_type_options.indexOf (sess_dept.getD "")
  else 0

/-- What the dept-scope field shows and whether the user can edit it. -/
structure ScopeWidget where
  value : String
  editable : Bool
deriving DecidableEq

/-- Streamlit session state for the fields the scope claims concern: the
values stored under the widget keys `"request_type"` and `"dept_type"`
(`none` models an absent key), plus the per-sub-request widget keys
(`svc_i`, `sub_i`, `desc_i`, ...) as an association list. -/
structure SessionState where
  request_type : Option String
  dept_type : Option String
  sub_answers : List (String × String)
deriving DecidableEq

/-- The rendered department-scope field (lines 271-284): `Project` renders a
disabled text input fixed to `"Multiple"`; `Maintenance`/`New` render the
selectbox, which shows the value already stored under its key (Streamlit
keeps a keyed widget's session value; the index recomputed at lines 279-283
restores the same value) or, with no stored value, the option at the
computed index; other request types render no scope field. -/
def dept_scope_widget (current_req : Option String) (sess_dept : Option String) :
    Option ScopeWidget :=
  if current_req == some "Project" then
    some { value := "Multiple", editable := false }
  else if current_req == some "Maintenance" || current_req == some "New" then
    some { value := sess_dept.getD (dept_type_options.getD (dept_type_index sess_dept) "")
           editable := true }
  else none

/-- Effect of choosing a new request type in the selectbox at line 259:
Streamlit stores the chosen option under the key `"request_type"`.  The
script contains no statement that clears `"dept_type"` or any sub-answer
widget key, so every other stored value persists. -/
def select_request_type (s : SessionState) (new_req : String) : SessionState :=
  { s with request_type := some new_req }

/-- `computed_dept_type` (line 556): `"Multiple"` when the request type is
`Project`, else the stored `dept_type`. -/
def computed_dept_type (current_req : Option String) (sess_dept : Option String) :
    Option String :=
  if current_req == some "Project" then some "Multiple" else sess_dept

/-- Expected-finish `(value, min_value)` passed to the date picker in the
Single-scope flow (lines 385-391), with dates as day numbers. -/
def single_flow_expected (today : Nat) (priority : String) : Nat × Nat :=
  if priority == "Urgent" then
    let d := today + 3
    (d, d)
  else
    let d := today + 10
    (d, d)

/-- Expected-finish `(value, min_value)` passed to the date picker in the
Multiple-scope flow (lines 489-495). -/
def multi_flow_expected (today : Nat) (priority : String) : Nat × Nat :=
  if priority == "Urgent" then
    let d := today + 3
    (d, d)
  else
    let d := today + 10
    (d, d)

/-- Modelled from the Streamlit `st.date_input` contract (lines 393-398,
497-502): with `min_value` set the widget never lets the user pick a date
below it; with no user action it shows `value`. -/
def date_input (value min_value : Nat) (choice : Option Nat) : Option Nat :=
  match choice with
  | none => some value
  | some d => if min_value ≤ d then some d else none

/-- `can_submit` for the Multiple-scope flow (line 519):
`bool(selected_depts) and bool(str(multi_description).strip())`. -/
def can_submit (selected_depts : List String) (multi_description : String) : Bool :=
  !selected_depts.isEmpty && !(pyStrip multi_description == "")

/-- The validation warnings rendered above the submit button (lines 520-523).
The two checks are independent `if` statements, so both messages appear when
both requirements are unmet. -/
def submit_warnings (selected_depts : List String) (multi_description : String) :
    List String :=
  (if selected_depts.isEmpty then
    ["Select one or more departments before submitting."]
  else []) ++
  (if pyStrip multi_description == "" then
    ["Please provide a description for the request."]
  else [])

/-- Outcome of pressing the Create-ticket button (lines 525-527). -/
inductive SubmitOutcome where
  | rejected
  | accepted
deriving DecidableEq

/-- The Multiple-scope submit handler (lines 525-547): an error when
`can_submit` fails, else the ticket payload is assembled. -/
def multi_submit (selected_depts : List String) (multi_description : String) :
    SubmitOutcome :=
  if !(can_submit selected_depts multi_description) then .rejected else .accepted

/-! ## Helper lemmas -/

theorem list_find_eq_filter_head {α : Type} (p : α → Bool) :
    ∀ l : List α, l.find? p = (l.filter p).head? := by
  intro l
  induction l with
  | nil => rfl
  | cons a t ih =>
      cases h : p a
      · rw [List.find?_cons_of_neg _ (by simp [h]), List.filter_cons_of_neg (by simp [h]), ih]
      · rw [List.find?_cons_of_pos _ h, List.filter_cons_of_pos h, List.head?_cons]

theorem filter_isEmpty_eq_not_any {α : Type} (p : α → Bool) :
    ∀ l : List α, (l.filter p).isEmpty = !l.any p := by
  intro l
  induction l with
  | nil => rfl
  | cons a t ih =>
      cases h : p a
      · rw [List.filter_cons_of_neg (by simp [h]), ih]
        simp [h]
      · rw [List.filter_cons_of_pos h]
        simp [h]

/-! ## Claim theorems -/

/-- C2: a fetch with a configured URL is classified as: network/transport
failure (including timeout) → Network error; non-JSON body → invalid-response
error; JSON object with an `error` field → Server error carrying that
message; JSON object with a `data` array field → success with those rows;
bare JSON array → success with those rows; anything else → unexpected-shape
error; and `{"data": [...]}` and the equivalent bare array yield identical
success outputs. -/
theorem fetch_sheet_data_classification (url : String) (hurl : ¬ url = "") :
    (∀ e, fetch_sheet_data url (.requestError e)
        = ⟨false, some ("Network error: " ++ e), none⟩) ∧
    (fetch_sheet_data url .invalidJson
        = ⟨false, some "Invalid JSON returned from apps script.", none⟩) ∧
    (∀ fields msg, jsonGet fields "error" = some (.str msg) →
        fetch_sheet_data url (.json (.obj fields))
          = ⟨false, some ("Server error: " ++ msg), none⟩) ∧
    (∀ fields rows, jsonGet fields "error" = none →
        jsonGet fields "data" = some (.arr rows) →
        fetch_sheet_data url (.json (.obj fields)) = ⟨true, none, some rows⟩) ∧
    (∀ rows, fetch_sheet_data url (.json (.arr rows)) = ⟨true, none, some rows⟩) ∧
    (∀ j, (isDict j && (jsonGet (dictFields j) "error").isSome) = false →
        (isDict j && isDataList (jsonGet (dictFields j) "data")) = false →
        isList j = false →
        fetch_sheet_data url (.json j)
          = ⟨false, some "Unexpected response from apps script.", none⟩) ∧
    (∀ rows, fetch_sheet_data url (.json (.obj [("data", .arr rows)]))
        = fetch_sheet_data url (.json (.arr rows))) := by
  have hu : (url == "") = false := by simp [hurl]
  refine ⟨fun e => ?_, ?_, fun fields msg herr => ?_, fun fields rows herr hdata => ?_,
    fun rows => ?_, fun j h1 h2 h3 => ?_, fun rows => ?_⟩
  · simp [fetch_sheet_data, hu]
  · simp [fetch_sheet_data, hu]
  · simp [fetch_sheet_data, hu, classify_response, isDict, dictFields, herr, pyStr]
  · simp [fetch_sheet_data, hu, classify_response, isDict, dictFields, herr, hdata,
      isDataList, dataElems]
  · simp [fetch_sheet_data, hu, classify_response, isDict, isList, listElems]
  · simp [fetch_sheet_data, hu, classify_response, h1, h2, h3]
  · simp [fetch_sheet_data, hu, classify_response, isDict, isList, dictFields,
      jsonGet, List.find?, isDataList, dataElems, listElems]

/-- C2 witness: the classification evaluated at a concrete configured URL and
a concrete bare-array response. -/
theorem fetch_sheet_data_classification_witness :
    fetch_sheet_data "u" (.json (.arr [])) = ⟨true, none, some []⟩ :=
  (fetch_sheet_data_classification "u" (by decide)).2.2.2.2.1 []

/-- C10: a JSON-object response containing an `error` field is classified as
a Server failure even when the same object also carries a well-formed `data`
array: the error check takes precedence over the data check. -/
theorem fetch_error_precedence (url : String) (fields : List (String × Json))
    (v : Json) (rows : List Json) (hurl : ¬ url = "")
    (herr : jsonGet fields "error" = some v)
    (_hdata : jsonGet fields "data" = some (.arr rows)) :
    fetch_sheet_data url (.json (.obj fields))
      = ⟨false, some ("Server error: " ++ pyStr v), none⟩ := by
  have hu : (url == "") = false := by simp [hurl]
  simp [fetch_sheet_data, hu, classify_response, isDict, dictFields, herr]

/-- C10 witness: a concrete object carrying both an `error` and a `data`
array is classified as a Server failure. -/
theorem fetch_error_precedence_witness :
    fetch_sheet_data "u" (.json (.obj [("error", .str "boom"), ("data", .arr [])]))
      = ⟨false, some ("Server error: " ++ pyStr (.str "boom")), none⟩ :=
  fetch_error_precedence "u" [("error", .str "boom"), ("data", .arr [])]
    (.str "boom") [] (by decide) rfl rfl

/-- C3: `find_email_row`, on rows and a lookup key, returns the first row in
row order one of whose candidate-email-column values, stripped and
lower-cased, equals the stripped, lower-cased input key (the caller
normalizes the key at line 194); it returns none on empty rows and none when
no row matches; and a cell `" User@X.com "` matches key `"user@x.com"`. -/
theorem find_email_row_spec (key : String) :
    (∀ (sample : Row) (rest : List Row),
        find_email_row (sample :: rest) (normalize_email key)
          = ((sample :: rest).filter (fun r =>
              (discover_email_cols sample).any (fun ec =>
                pyLower (pyStrip (rowGetD r ec)) == pyLower (pyStrip key)))).head?) ∧
    (find_email_row [] (normalize_email key) = none) ∧
    (∀ (sample : Row) (rest : List Row),
        (find_email_row (sample :: rest) (normalize_email key) = none ↔
          ∀ r ∈ sample :: rest,
            (discover_email_cols sample).any (fun ec =>
              pyLower (pyStrip (rowGetD r ec)) == pyLower (pyStrip key)) = false)) ∧
    (find_email_row [[("Email", " User@X.com ")]] "user@x.com"
        = some [("Email", " User@X.com ")]) := by
  have hmain : ∀ (sample : Row) (rest : List Row),
      find_email_row (sample :: rest) (normalize_email key)
        = ((sample :: rest).filter (fun r =>
            (discover_email_cols sample).any (fun ec =>
              pyLower (pyStrip (rowGetD r ec)) == pyLower (pyStrip key)))).head? := by
    intro sample rest
    have hdef : find_email_row (sample :: rest) (normalize_email key)
        = (sample :: rest).find?
            (row_matches_email (discover_email_cols sample) (normalize_email key)) := rfl
    rw [hdef, list_find_eq_filter_head]
    rfl
  refine ⟨hmain, rfl, fun sample rest => ?_, by decide⟩
  rw [hmain]
  constructor
  · intro hnone r hr
    rcases hfind : ((sample :: rest).filter (fun r =>
        (discover_email_cols sample).any (fun ec =>
          pyLower (pyStrip (rowGetD r ec)) == pyLower (pyStrip key)))) with _ | ⟨a, t⟩
    · have := List.filter_eq_nil_iff.mp hfind r hr
      simpa using this
    · rw [hfind] at hnone
      simp at hnone
  · intro hall
    have : ((sample :: rest).filter (fun r =>
        (discover_email_cols sample).any (fun ec =>
          pyLower (pyStrip (rowGetD r ec)) == pyLower (pyStrip key)))) = [] := by
      apply List.filter_eq_nil_iff.mpr
      intro r hr
      simp [hall r hr]
    rw [this]
    rfl

/-- C8: candidate email-column discovery selects every column of the first
row whose name contains "email" case-insensitively; when no name matches, it
falls back to the columns whose first-row cell value contains "@". -/
theorem discover_email_cols_spec (sample : Row) :
    ((rowKeys sample).any (fun k => pyIn "email" (pyLower k)) = true →
        discover_email_cols sample
          = (rowKeys sample).filter (fun k => pyIn "email" (pyLower k))) ∧
    ((rowKeys sample).any (fun k => pyIn "email" (pyLower k)) = false →
        discover_email_cols sample
          = (rowKeys sample).filter (fun k => pyIn "@" (pyStrip (rowGetD sample k)))) ∧
    (discover_email_cols [("Contact", "a@b.c"), ("Name", "X")] = ["Contact"]) := by
  refine ⟨fun h => ?_, fun h => ?_, by decide⟩
  · rw [discover_email_cols]
    simp [filter_isEmpty_eq_not_any, h]
  · rw [discover_email_cols]
    simp [filter_isEmpty_eq_not_any, h]

/-- C9: `pick_key` returns the first column name, scanning candidates in
order and for each candidate the columns in their existing order, whose
lower-cased name contains the candidate substring, and none when no column
matches any candidate.  The first conjunct states this as the head of the
concatenation, in candidate order, of each candidate's matching columns in
column order. -/
theorem pick_key_spec (keys cands : List String) :
    (pick_key keys cands
        = ((cands.map (fun c => keys.filter (fun k => pyIn c (pyLower k)))).flatten).head?) ∧
    ((∀ c ∈ cands, ∀ k ∈ keys, pyIn c (pyLower k) = false) →
        pick_key keys cands = none) := by
  have hmain : ∀ cs : List String, pick_key keys cs
      = ((cs.map (fun c => keys.filter (fun k => pyIn c (pyLower k)))).flatten).head? := by
    intro cs
    induction cs with
    | nil => rfl
    | cons c t ih =>
        rw [pick_key, list_find_eq_filter_head]
        rcases hf : keys.filter (fun k => pyIn c (pyLower k)) with _ | ⟨v, vs⟩
        · simp [hf, ih]
        · simp [hf]
  refine ⟨hmain cands, fun hall => ?_⟩
  rw [hmain cands]
  have : (cands.map (fun c => keys.filter (fun k => pyIn c (pyLower k)))).flatten = [] := by
    apply List.flatten_eq_nil_iff.mpr
    intro l hl
    rcases List.mem_map.mp hl with ⟨c, hc, rfl⟩
    apply List.filter_eq_nil_iff.mpr
    intro k hk
    simp [hall c hc k hk]
  rw [this]
  rfl

/-- C1 counterexample: with request type `Maintenance`, scope `Single` and a
stored sub-answer, selecting request type `New` leaves the scope selectbox
showing `Single` (lines 279-283 restore the stored value; nothing resets it
to the `-- Select --` placeholder) and leaves the sub-answer stored. -/
theorem request_type_reset_counterexample :
    dept_scope_widget
        (select_request_type ⟨some "Maintenance", some "Single", [("svc_0", "Plumbing")]⟩
          "New").request_type
        (select_request_type ⟨some "Maintenance", some "Single", [("svc_0", "Plumbing")]⟩
          "New").dept_type
      = some ⟨"Single", true⟩ ∧
    (select_request_type ⟨some "Maintenance", some "Single", [("svc_0", "Plumbing")]⟩
        "New").dept_type ≠ some "-- Select --" ∧
    (select_request_type ⟨some "Maintenance", some "Single", [("svc_0", "Plumbing")]⟩
        "New").dept_type ≠ none ∧
    (select_request_type ⟨some "Maintenance", some "Single", [("svc_0", "Plumbing")]⟩
        "New").sub_answers = [("svc_0", "Plumbing")] := by
  refine ⟨rfl, by decide, by decide, rfl⟩

/-- C1 amended: selecting a new request type writes only the `request_type`
key: a previously stored department scope is preserved (the scope selectbox
shows it again) rather than reset to the placeholder, except that `Project`
forces the scope field to a non-editable `Multiple`; the stored
scope-dependent sub-answers are likewise retained, not cleared. -/
theorem request_type_change_preserves_scope :
    (∀ (s : SessionState) (new_req prev : String),
        (new_req = "Maintenance" ∨ new_req = "New") →
        s.dept_type = some prev →
        dept_scope_widget (select_request_type s new_req).request_type
            (select_request_type s new_req).dept_type = some ⟨prev, true⟩) ∧
    (∀ s : SessionState,
        dept_scope_widget (select_request_type s "Project").request_type
            (select_request_type s "Project").dept_type = some ⟨"Multiple", false⟩) ∧
    (∀ (s : SessionState) (r : String),
        (select_request_type s r).dept_type = s.dept_type ∧
        (select_request_type s r).sub_answers = s.sub_answers) := by
  refine ⟨fun s new_req prev hreq hdept => ?_, fun s => ?_, fun s r => ⟨rfl, rfl⟩⟩
  · rcases hreq with h | h <;>
      simp [select_request_type, dept_scope_widget, h, hdept]
  · simp [select_request_type, dept_scope_widget]

/-- C7: when the request type is `Project`, the department scope is forced to
`Multiple` and the field is not user-editable, and the computed
`department_type` of the assembled preview is `"Multiple"` regardless of any
previously stored scope. -/
theorem project_forces_multiple_scope :
    (∀ sess_dept : Option String,
        computed_dept_type (some "Project") sess_dept = some "Multiple") ∧
    (∀ sess_dept : Option String,
        dept_scope_widget (some "Project") sess_dept = some ⟨"Multiple", false⟩) := by
  exact ⟨fun _ => rfl, fun _ => rfl⟩

/-- C5: in both the Single-scope and the Multiple-scope flow, the
expected-finish-date default and minimum equal today + 3 days when the
priority is Urgent and today + 10 days otherwise, and the date picker never
accepts a date earlier than that minimum. -/
theorem expected_finish_minimum (today : Nat) (priority : String) :
    (single_flow_expected today priority = multi_flow_expected today priority) ∧
    (priority = "Urgent" →
        single_flow_expected today priority = (today + 3, today + 3)) ∧
    (priority ≠ "Urgent" →
        single_flow_expected today priority = (today + 10, today + 10)) ∧
    (∀ d, d < (single_flow_expected today priority).2 →
        date_input (single_flow_expected today priority).1
          (single_flow_expected today priority).2 (some d) = none) ∧
    (∀ d, (single_flow_expected today priority).2 ≤ d →
        date_input (single_flow_expected today priority).1
          (single_flow_expected today priority).2 (some d) = some d) ∧
    (date_input (single_flow_expected today priority).1
        (single_flow_expected today priority).2 none
      = some (single_flow_expected today priority).1) ∧
    (∀ d, d < (multi_flow_expected today priority).2 →
        date_input (multi_flow_expected today priority).1
          (multi_flow_expected today priority).2 (some d) = none) := by
  refine ⟨rfl, fun h => ?_, fun h => ?_, fun d hd => ?_, fun d hd => ?_, rfl, fun d hd => ?_⟩
  · simp [single_flow_expected, h]
  · simp [single_flow_expected, h]
  · simp only [date_input]
    rw [if_neg (by omega)]
  · simp only [date_input]
    rw [if_pos hd]
  · simp only [date_input]
    rw [if_neg (by omega)]

/-- C6: the Multiple-scope submit is rejected exactly when the selected
departments list is empty or the shared description is blank after
stripping, and accepted otherwise; each unmet requirement produces its own
warning message, so both are reported when both are unmet. -/
theorem multi_submit_validation (depts : List String) (desc : String) :
    (multi_submit depts desc = .rejected ↔ (depts = [] ∨ pyStrip desc = "")) ∧
    (multi_submit depts desc = .accepted ↔ (depts ≠ [] ∧ pyStrip desc ≠ "")) ∧
    ("Select one or more departments before submitting." ∈ submit_warnings depts desc
        ↔ depts = []) ∧
    ("Please provide a description for the request." ∈ submit_warnings depts desc
        ↔ pyStrip desc = "") := by
  by_cases h2 : pyStrip desc = "" <;>
    cases depts <;>
      simp [multi_submit, can_submit, submit_warnings, h2]

theorem foldl_dictSet_gen {β κ α : Type} [BEq κ] [LawfulBEq κ] (key : β → κ) (val : β → α) :
    ∀ (bs : List β) (acc : List (κ × α)),
      (bs.map key).Nodup →
      (∀ b ∈ bs, ∀ q ∈ acc, (q.1 == key b) = false) →
      bs.foldl (fun m b => dictSet m (key b) (val b)) acc
        = acc ++ bs.map (fun b => (key b, val b)) := by
  intro bs
  induction bs with
  | nil => intro acc _ _; simp
  | cons b t ih =>
      intro acc hnodup hdisj
      have hcons : (key b :: t.map key).Nodup := by simpa using hnodup
      have hany : (acc.any (fun q => q.1 == key b)) = false := by
        apply List.any_eq_false.mpr
        intro q hq
        simp [hdisj b (List.mem_cons_self b t) q hq]
      rw [List.foldl_cons,
        show dictSet acc (key b) (val b) = acc ++ [(key b, val b)] from by
          simp [dictSet, hany],
        ih (acc ++ [(key b, val b)]) hcons.of_cons ?_]
      · simp
      · intro b' hb' q hq
        rcases List.mem_append.mp hq with hq | hq
        · exact hdisj b' (List.mem_cons_of_mem _ hb') q hq
        · have hq' : q = (key b, val b) := by simpa using hq
          subst hq'
          cases hbe : (key b == key b') with
          | false => rfl
          | true =>
              exfalso
              apply (List.nodup_cons.mp hcons).1
              rw [eq_of_beq hbe]
              exact List.mem_map_of_mem key hb'

theorem tableGet_map_of_mem {β κ : Type} [BEq κ] [LawfulBEq κ]
    (key : β → κ) (val : β → List String) :
    ∀ (bs : List β) (b : β), b ∈ bs → (bs.map key).Nodup →
      tableGet (bs.map (fun x => (key x, val x))) (key b) = some (val b) := by
  intro bs
  induction bs with
  | nil => intro b hb _; cases hb
  | cons b0 t ih =>
      intro b hb hnodup
      have hcons : (key b0 :: t.map key).Nodup := by simpa using hnodup
      rcases List.mem_cons.mp hb with rfl | hb'
      · simp only [List.map_cons, tableGet]
        rw [List.find?_cons_of_pos _ (by simp)]
        rfl
      · have hne : (key b0 == key b) = false := by
          cases hbe : (key b0 == key b) with
          | false => rfl
          | true =>
              exfalso
              apply (List.nodup_cons.mp hcons).1
              rw [eq_of_beq hbe]
              exact List.mem_map_of_mem key hb'
        simp only [List.map_cons, tableGet]
        rw [List.find?_cons_of_neg _ (by simp [hne])]
        exact ih b hb' hcons.of_cons

theorem parse_config_dicts_eq (r0 : List (String × Cell)) (rest : List (List (String × Cell)))
    (hnodup : (r0.map Prod.fst).Nodup) :
    parse_config_dicts (r0 :: rest)
      = (r0.map Prod.fst).map
          (fun h => (h, dropDupHeader h (colVals (r0 :: rest) h))) := by
  have := foldl_dictSet_gen (fun h : String => h)
    (fun h => dropDupHeader h (colVals (r0 :: rest) h))
    (r0.map Prod.fst) [] (by simpa using hnodup) (by simp)
  simpa [parse_config_dicts] using this

theorem parse_config_lists_eq (headers : List Cell) (dataRows : List (List Cell))
    (hnodup : headers.Nodup) :
    parse_config_lists (headers :: dataRows)
      = headers.enum.map (fun p => (p.2, listColVals dataRows p.1)) := by
  have := foldl_dictSet_gen (Prod.snd : Nat × Cell → Cell)
    (fun p => listColVals dataRows p.1)
    headers.enum [] (by rw [List.enum_map_snd]; exact hnodup) (by simp)
  simpa [parse_config_lists] using this

/-- C4 counterexample: the drop check at line 141 strips the header before
comparing, so with header `"Dept "` (trailing blank) the leading value
`"Dept"` is dropped although it does not textually equal the header
case-insensitively. -/
theorem parse_config_header_drop_counterexample :
    parse_config_dicts [[("Dept ", some "Dept")], [("Dept ", some "A")]]
      = [("Dept ", ["A"])] ∧
    ¬ pyLower "Dept" = pyLower "Dept " := by
  exact ⟨by decide, by decide⟩

/-- C4 amended: row-map parsing drops the first value of a column exactly
when, after stripping and lower-casing both sides, it equals the header
(values are already stripped, so equivalently when it matches the stripped
header case-insensitively); header-plus-rows-of-arrays parsing never drops a
value based on its content, omitting only blank cells; and empty input
yields an empty table. -/
theorem parse_config_columns_spec :
    (∀ (r0 : List (String × Cell)) (rest : List (List (String × Cell))) (h : String),
        (r0.map Prod.fst).Nodup → h ∈ r0.map Prod.fst →
        tableGet (parse_config_dicts (r0 :: rest)) h
          = some (match colVals (r0 :: rest) h with
                  | [] => []
                  | v :: vs =>
                      if pyLower (pyStrip v) == pyLower (pyStrip h) then vs
                      else v :: vs)) ∧
    (parse_config_dicts [[("Dept", some "Dept")], [("Dept", some "A")], [("Dept", some "B")]]
        = [("Dept", ["A", "B"])]) ∧
    (∀ (headers : List Cell) (dataRows : List (List Cell)),
        headers.Nodup →
        parse_config_lists (headers :: dataRows)
          = headers.enum.map (fun p =>
              (p.2, dataRows.filterMap (fun r =>
                if cellVal (r.getD p.1 none) == "" then none
                else some (cellVal (r.getD p.1 none)))))) ∧
    (parse_config_lists [[some "Dept"], [some "Dept"], [some "A"]]
        = [(some "Dept", ["Dept", "A"])]) ∧
    (parse_config_dicts [] = []) ∧
    (parse_config_lists [] = []) := by
  refine ⟨fun r0 rest h hnodup hmem => ?_, by decide, fun headers dataRows hnodup => ?_,
    by decide, rfl, rfl⟩
  · rw [parse_config_dicts_eq r0 rest hnodup]
    exact tableGet_map_of_mem (fun x : String => x)
      (fun x => dropDupHeader x (colVals (r0 :: rest) x)) (r0.map Prod.fst) h hmem
      (by simpa using hnodup)
  · rw [parse_config_lists_eq headers dataRows hnodup]
    rfl
